import Mathlib

/-!
Verification development for the PyTECGg satellite-geometry core.

The repository carries three near-duplicate Python packages (`pytec`,
`pytecal`, `pytecgg`).  Definitions below are shallow embeddings of the
functions in those packages; where two packages hold divergent variants of
the same function, both variants are embedded and the variant is marked
with a suffix (`_al` for `pytecal`, `_gg` for `pytecgg`, `_pytec` for
`pytec`).  Machine floating point is modelled by the real numbers; the
floating-point value NaN is modelled by `none` in `Option ℝ` where the
code inspects or propagates NaN.
-/

namespace PyTECGg

/-! ### Kepler solver (src/pytec|pytecal|pytecgg: satellites/kepler.py)

The three packages hold textually identical copies of `kepler`. -/

/-- The fixed-point iteration loop of `kepler`:
`while abs(e_curr - e_prev) > tol_rad: e_prev, e_curr = e_curr, mk + e * np.sin(e_curr)`,
returning `e_curr` on exit.  The `while` loop is modelled with explicit
fuel; `none` means the loop has not terminated within `fuel` iterations. -/
noncomputable def keplerLoop (e mk tolRad : ℝ) : ℕ → ℝ → ℝ → Option ℝ
  | 0, _, _ => none
  | fuel + 1, ePrev, eCurr =>
    if |eCurr - ePrev| > tolRad then
      keplerLoop e mk tolRad fuel eCurr (mk + e * Real.sin eCurr)
    else
      some eCurr

/-- `kepler(e, mk, tol)`: eccentricity `e`, mean anomaly `mk` (radians),
tolerance `tol` (arcseconds).  `tol_rad = tol * (np.pi / 648000)`;
seed `e_prev = mk`, `e_curr = mk + e * np.sin(e_prev)`. -/
noncomputable def kepler (e mk tol : ℝ) (fuel : ℕ) : Option ℝ :=
  keplerLoop e mk (tol * (Real.pi / 648000)) fuel mk (mk + e * Real.sin mk)

/-- The sine function is 1-Lipschitz. -/
theorem abs_sin_sub_sin_le (a b : ℝ) : |Real.sin a - Real.sin b| ≤ |a - b| := by
  rw [Real.sin_sub_sin, abs_mul, abs_mul, abs_two]
  have h1 : |Real.sin ((a - b) / 2)| ≤ |(a - b) / 2| := Real.abs_sin_le_abs
  have h2 : |Real.cos ((a + b) / 2)| ≤ 1 := Real.abs_cos_le_one _
  have h3 : (0 : ℝ) ≤ |Real.sin ((a - b) / 2)| := abs_nonneg _
  have h4 : |(a - b) / 2| = |a - b| / 2 := by
    rw [abs_div]
    norm_num
  nlinarith [abs_nonneg (a - b)]

/-- Loop invariant: at every state of the `kepler` loop,
`e_curr = mk + e * sin(e_prev)`.  If the loop exits with value `Ek` and
`0 ≤ e ≤ 1`, the residual of the Kepler equation at `Ek` is within the
radian tolerance. -/
theorem keplerLoop_residual {e mk tolRad : ℝ} (he0 : 0 ≤ e) (he1 : e ≤ 1) :
    ∀ (fuel : ℕ) (ePrev eCurr Ek : ℝ), eCurr = mk + e * Real.sin ePrev →
      keplerLoop e mk tolRad fuel ePrev eCurr = some Ek →
      |Ek - e * Real.sin Ek - mk| ≤ tolRad := by
  intro fuel
  induction fuel with
  | zero => intro ePrev eCurr Ek _ h; simp [keplerLoop] at h
  | succ n ih =>
    intro ePrev eCurr Ek hinv h
    rw [keplerLoop] at h
    by_cases hc : |eCurr - ePrev| > tolRad
    · rw [if_pos hc] at h
      exact ih eCurr (mk + e * Real.sin eCurr) Ek rfl h
    · rw [if_neg hc] at h
      have hEk : Ek = eCurr := by
        injection h with h'
        exact h'.symm
      push_neg at hc
      subst hEk
      have hres : Ek - e * Real.sin Ek - mk = e * (Real.sin ePrev - Real.sin Ek) := by
        rw [hinv]; ring
      rw [hres, abs_mul, abs_of_nonneg he0]
      have hlip : |Real.sin ePrev - Real.sin Ek| ≤ |ePrev - Ek| := abs_sin_sub_sin_le _ _
      have habs : |ePrev - Ek| = |Ek - ePrev| := abs_sub_comm _ _
      have h5 : |Real.sin ePrev - Real.sin Ek| ≤ tolRad := by
        rw [habs] at hlip
        exact le_trans hlip hc
      calc e * |Real.sin ePrev - Real.sin Ek| ≤ 1 * |Real.sin ePrev - Real.sin Ek| := by
            apply mul_le_mul_of_nonneg_right he1 (abs_nonneg _)
        _ = |Real.sin ePrev - Real.sin Ek| := one_mul _
        _ ≤ tolRad := h5

/-- Termination of the `kepler` loop: the successive-iterate gap contracts
by a factor `e` at every step, so once `e ^ n` times the initial gap is
below the tolerance, `n + 1` units of fuel suffice. -/
theorem keplerLoop_terminates {e mk tolRad : ℝ} (he0 : 0 ≤ e) :
    ∀ (n : ℕ) (ePrev eCurr : ℝ), eCurr = mk + e * Real.sin ePrev →
      e ^ n * |eCurr - ePrev| ≤ tolRad →
      ∃ Ek, keplerLoop e mk tolRad (n + 1) ePrev eCurr = some Ek := by
  intro n
  induction n with
  | zero =>
    intro ePrev eCurr _ hgap
    rw [pow_zero, one_mul] at hgap
    refine ⟨eCurr, ?_⟩
    rw [keplerLoop, if_neg (by push_neg; exact hgap)]
  | succ n ih =>
    intro ePrev eCurr hinv hgap
    by_cases hc : |eCurr - ePrev| > tolRad
    · have hstep : |(mk + e * Real.sin eCurr) - eCurr| ≤ e * |eCurr - ePrev| := by
        have : (mk + e * Real.sin eCurr) - eCurr = e * (Real.sin eCurr - Real.sin ePrev) := by
          rw [hinv]; ring
        rw [this, abs_mul, abs_of_nonneg he0]
        exact mul_le_mul_of_nonneg_left (abs_sin_sub_sin_le _ _) he0
      have hgap' : e ^ n * |(mk + e * Real.sin eCurr) - eCurr| ≤ tolRad := by
        have hpow : (0 : ℝ) ≤ e ^ n := pow_nonneg he0 n
        calc e ^ n * |(mk + e * Real.sin eCurr) - eCurr|
            ≤ e ^ n * (e * |eCurr - ePrev|) := mul_le_mul_of_nonneg_left hstep hpow
          _ = e ^ (n + 1) * |eCurr - ePrev| := by ring
          _ ≤ tolRad := hgap
      obtain ⟨Ek, hEk⟩ := ih eCurr (mk + e * Real.sin eCurr) rfl hgap'
      refine ⟨Ek, ?_⟩
      rw [keplerLoop, if_pos hc]
      exact hEk
    · push_neg at hc
      refine ⟨eCurr, ?_⟩
      rw [keplerLoop, if_neg (by push_neg; exact hc)]

/-- C1: for every eccentricity `0 ≤ e < 1`, every mean anomaly `Mk` and every
tolerance `tol > 0` in arcseconds, the `kepler` loop terminates (for some
fuel) and the returned eccentric anomaly `Ek` satisfies
`|Ek − e·sin(Ek) − Mk| ≤ tol·(π/648000)`. -/
theorem kepler_residual_le_tol (e mk tol : ℝ) (he0 : 0 ≤ e) (he1 : e < 1)
    (htol : 0 < tol) :
    ∃ (fuel : ℕ) (Ek : ℝ), kepler e mk tol fuel = some Ek ∧
      |Ek - e * Real.sin Ek - mk| ≤ tol * (Real.pi / 648000) := by
  have htolRadPos : 0 < tol * (Real.pi / 648000) := by
    apply mul_pos htol
    apply div_pos Real.pi_pos
    norm_num
  set tolRad := tol * (Real.pi / 648000) with htolRad
  set d0 := |(mk + e * Real.sin mk) - mk| with hd0def
  have hd0nn : 0 ≤ d0 := abs_nonneg _
  obtain ⟨n, hn⟩ := exists_pow_lt_of_lt_one
    (x := tolRad / (d0 + 1)) (y := e) (by positivity) he1
  have hgap : e ^ n * d0 ≤ tolRad := by
    have h1 : e ^ n * d0 ≤ e ^ n * (d0 + 1) :=
      mul_le_mul_of_nonneg_left (by linarith) (pow_nonneg he0 n)
    have h2 : e ^ n * (d0 + 1) < (tolRad / (d0 + 1)) * (d0 + 1) :=
      mul_lt_mul_of_pos_right hn (by positivity)
    have h3 : (tolRad / (d0 + 1)) * (d0 + 1) = tolRad := by
      field_simp
    linarith
  obtain ⟨Ek, hEk⟩ :=
    keplerLoop_terminates he0 n mk (mk + e * Real.sin mk) rfl hgap
  exact ⟨n + 1, Ek, hEk,
    keplerLoop_residual he0 he1.le (n + 1) mk (mk + e * Real.sin mk) Ek rfl hEk⟩

/-- Witness for `kepler_residual_le_tol` at `e = 0`, `Mk = 0`, `tol = 1`. -/
theorem kepler_residual_le_tol_witness :
    (0 : ℝ) ≤ 0 ∧ (0 : ℝ) < 1 ∧ (0 : ℝ) < 1 ∧
      ∃ (fuel : ℕ) (Ek : ℝ), kepler 0 0 1 fuel = some Ek ∧
        |Ek - 0 * Real.sin Ek - 0| ≤ 1 * (Real.pi / 648000) :=
  ⟨le_refl 0, by norm_num, by norm_num,
    kepler_residual_le_tol 0 0 1 (le_refl 0) (by norm_num) (by norm_num)⟩

/-- C9 (amended): for every mean anomaly `Mk`, every tolerance `tol ≥ 0` and
any positive fuel, `kepler(0, Mk, tol)` returns exactly `Mk`: with zero
eccentricity the seed `e_curr = Mk + 0·sin(Mk) = Mk` already meets the
stopping criterion and the loop body never runs. -/
theorem kepler_zero_ecc (mk tol : ℝ) (n : ℕ) (htol : 0 ≤ tol) :
    kepler 0 mk tol (n + 1) = some mk := by
  rw [kepler]
  have hseed : mk + 0 * Real.sin mk = mk := by ring
  rw [hseed, keplerLoop]
  have htolRad : 0 ≤ tol * (Real.pi / 648000) := by
    apply mul_nonneg htol
    positivity
  rw [if_neg]
  rw [sub_self, abs_zero]
  exact not_lt.mpr htolRad

/-- Witness for `kepler_zero_ecc` at `Mk = 5`, `tol = 1`, fuel `1`. -/
theorem kepler_zero_ecc_witness :
    (0 : ℝ) ≤ 1 ∧ kepler 0 5 1 1 = some 5 :=
  ⟨by norm_num, kepler_zero_ecc 5 1 0 (by norm_num)⟩

/-- With `e = 0`, `Mk = 0` and a negative radian tolerance, the state of the
`kepler` loop is stuck at `(0, 0)` and the stopping criterion
`|0 − 0| ≤ tol_rad` never holds, so the loop never terminates. -/
theorem keplerLoop_zero_neg_tol_none {tolRad : ℝ} (ht : tolRad < 0) :
    ∀ n : ℕ, keplerLoop 0 0 tolRad n 0 0 = none := by
  intro n
  induction n with
  | zero => rfl
  | succ m ih =>
    rw [keplerLoop, if_pos]
    · have h : (0 : ℝ) + 0 * Real.sin 0 = 0 := by ring
      rw [h]
      exact ih
    · rw [sub_self, abs_zero]
      exact ht

/-- C9 counterexample: it is not true that `kepler(0, Mk, tol)` returns `Mk`
for every tolerance: at `Mk = 0`, `tol = −1` the loop never terminates
(no amount of fuel makes it return). -/
theorem kepler_zero_ecc_counterexample :
    ¬ (∀ (mk tol : ℝ), ∃ fuel : ℕ, kepler 0 mk tol fuel = some mk) := by
  intro h
  obtain ⟨fuel, hf⟩ := h 0 (-1)
  rw [kepler] at hf
  have hseed : (0 : ℝ) + 0 * Real.sin 0 = 0 := by ring
  rw [hseed] at hf
  have ht : (-1 : ℝ) * (Real.pi / 648000) < 0 := by
    have := Real.pi_pos
    nlinarith
  rw [keplerLoop_zero_neg_tol_none ht fuel] at hf
  exact Option.noConfusion hf

/-! ### Pierce-point geometry (src/pytecal/phase/ipp.py and src/pytecgg/phase/ipp.py)

The external pymap3d conversions `ecef2geodetic` and `ecef2aer` are taken
as function parameters (`geodetic`, returning latitude/longitude/altitude,
and `aer`, taking the satellite ECEF triple and the receiver geodetic
triple and returning azimuth/elevation/range).  A satellite coordinate
that is NaN is modelled by `none : Option ℝ`; outputs that are NaN or
`None` in the source are likewise modelled by `none`. -/

/-- Earth radius in meters (src/pytecgg/phase/__init__.py; the
`pytecal.phase` package init is not in the source tree and resolves the
same name, modelled by the same constant). -/
def RE : ℝ := 6371000

/-- The discriminant of the line–sphere quadratic, as computed (in
algebraically identical form) by both `calculate_ipp` variants:
`b² − 4ac` with `a = |sat−rec|²`, `b = 2·(sat−rec)·rec`,
`c = |rec|² − (RE + h_ipp)²`. -/
def ippDisc (recEcef satEcef : ℝ × ℝ × ℝ) (h_ipp : ℝ) : ℝ :=
  let dx := satEcef.1 - recEcef.1
  let dy := satEcef.2.1 - recEcef.2.1
  let dz := satEcef.2.2 - recEcef.2.2
  let a := dx ^ 2 + dy ^ 2 + dz ^ 2
  let b := 2 * (dx * recEcef.1 + dy * recEcef.2.1 + dz * recEcef.2.2)
  let c := recEcef.1 ^ 2 + recEcef.2.1 ^ 2 + recEcef.2.2 ^ 2 - (RE + h_ipp) ^ 2
  b ^ 2 - 4 * a * c

/-- `calculate_ipp` from src/pytecal/phase/ipp.py (scalar variant).
Mirrors the source: the NaN guard on the satellite coordinates returns
four `None`; otherwise the quadratic is solved with the Earth center
`(xc, yc, zc) = (0, 0, 0)` written out; on a negative discriminant the
source sets the pierce point to the origin `(0.0, 0.0, 0.0)` and still
converts it; otherwise `t = min(max(t1, t2), 1.0)`; azimuth and elevation
are always computed from the satellite and the receiver geodetic
position. -/
noncomputable def calculate_ipp_al
    (geodetic : ℝ × ℝ × ℝ → ℝ × ℝ × ℝ)
    (aer : ℝ × ℝ × ℝ → ℝ × ℝ × ℝ → ℝ × ℝ × ℝ)
    (recEcef : ℝ × ℝ × ℝ) (satEcef : Option ℝ × Option ℝ × Option ℝ)
    (h_ipp : ℝ) : Option ℝ × Option ℝ × Option ℝ × Option ℝ :=
  match satEcef with
  | (some xB, some yB, some zB) =>
    let r := h_ipp + RE
    let xA := recEcef.1
    let yA := recEcef.2.1
    let zA := recEcef.2.2
    let xc : ℝ := 0
    let yc : ℝ := 0
    let zc : ℝ := 0
    let a := (xB - xA) ^ 2 + (yB - yA) ^ 2 + (zB - zA) ^ 2
    let b := 2 * ((xB - xA) * (xA - xc) + (yB - yA) * (yA - yc) + (zB - zA) * (zA - zc))
    let c := xc ^ 2 + yc ^ 2 + zc ^ 2 + xA ^ 2 + yA ^ 2 + zA ^ 2
      - 2 * (xc * xA + yc * yA + zc * zA) - r ^ 2
    let discriminant := b ^ 2 - 4 * a * c
    let point :=
      if discriminant < 0 then
        ((0 : ℝ), (0 : ℝ), (0 : ℝ))
      else
        let t1 := (-b + Real.sqrt discriminant) / (2 * a)
        let t2 := (-b - Real.sqrt discriminant) / (2 * a)
        let t := min (max t1 t2) 1
        (xA + (xB - xA) * t, yA + (yB - yA) * t, zA + (zB - zA) * t)
    let g := geodetic point
    let recGeo := geodetic (xA, yA, zA)
    let ae := aer (xB, yB, zB) recGeo
    (some g.1, some g.2.1, some ae.1, some ae.2.1)
  | _ => (none, none, none, none)

/-- One entry of the vectorized `calculate_ipp` from
src/pytecgg/phase/ipp.py, called with `rec_geodetic = None` (so the
receiver geodetic coordinates are computed from `rec_ecef`).  A NaN
satellite coordinate propagates into `disc`, the entry mask `disc >= 0`
is then false (IEEE comparisons against NaN are false) and all four
outputs keep their NaN initialisation; this is the `none` fall-through.
(If `a = 0`, i.e. receiver equals satellite, the source divides by zero
producing infinities that fail the root-validity test; the claims proved
below never reach that branch.) -/
noncomputable def calculate_ipp_gg
    (geodetic : ℝ × ℝ × ℝ → ℝ × ℝ × ℝ)
    (aer : ℝ × ℝ × ℝ → ℝ × ℝ × ℝ → ℝ × ℝ × ℝ)
    (recEcef : ℝ × ℝ × ℝ) (satEcef : Option ℝ × Option ℝ × Option ℝ)
    (h_ipp : ℝ) : Option ℝ × Option ℝ × Option ℝ × Option ℝ :=
  match satEcef with
  | (some xB, some yB, some zB) =>
    let xA := recEcef.1
    let yA := recEcef.2.1
    let zA := recEcef.2.2
    let dx := xB - xA
    let dy := yB - yA
    let dz := zB - zA
    let a := dx ^ 2 + dy ^ 2 + dz ^ 2
    let b := 2 * (dx * xA + dy * yA + dz * zA)
    let c := xA ^ 2 + yA ^ 2 + zA ^ 2 - (RE + h_ipp) ^ 2
    let disc := b ^ 2 - 4 * a * c
    if disc < 0 then
      (none, none, none, none)
    else
      let sqrtDisc := Real.sqrt disc
      let denom := 2 * a
      let t1 := (-b + sqrtDisc) / denom
      let t2 := (-b - sqrtDisc) / denom
      let t : Option ℝ :=
        if 0 ≤ t1 ∧ t1 ≤ 1 then
          if 0 ≤ t2 ∧ t2 ≤ 1 then some (min t1 t2) else some t1
        else
          if 0 ≤ t2 ∧ t2 ≤ 1 then some t2 else none
      match t with
      | none => (none, none, none, none)
      | some tv =>
        let g := geodetic (xA + dx * tv, yA + dy * tv, zA + dz * tv)
        let recGeo := geodetic recEcef
        let ae := aer (xB, yB, zB) recGeo
        (some g.1, some g.2.1, some ae.1, some ae.2.1)
  | _ => (none, none, none, none)

/-- C8: if any satellite ECEF coordinate is NaN, both `calculate_ipp`
variants return all four outputs undefined (`None`/NaN) for that entry,
and no exception is raised (the functions return normally). -/
theorem ipp_nan_gives_undefined
    (geodetic : ℝ × ℝ × ℝ → ℝ × ℝ × ℝ)
    (aer : ℝ × ℝ × ℝ → ℝ × ℝ × ℝ → ℝ × ℝ × ℝ)
    (recEcef : ℝ × ℝ × ℝ) (satEcef : Option ℝ × Option ℝ × Option ℝ)
    (h_ipp : ℝ)
    (h : satEcef.1 = none ∨ satEcef.2.1 = none ∨ satEcef.2.2 = none) :
    calculate_ipp_al geodetic aer recEcef satEcef h_ipp = (none, none, none, none) ∧
    calculate_ipp_gg geodetic aer recEcef satEcef h_ipp = (none, none, none, none) := by
  obtain ⟨x, y, z⟩ := satEcef
  cases x <;> cases y <;> cases z <;>
    simp_all [calculate_ipp_al, calculate_ipp_gg]

/-- Witness for `ipp_nan_gives_undefined`: a satellite with a NaN X
coordinate yields four undefined outputs in both variants. -/
theorem ipp_nan_gives_undefined_witness :
    ((none, some (0 : ℝ), some (0 : ℝ)) :
        Option ℝ × Option ℝ × Option ℝ).1 = none ∧
    calculate_ipp_al (fun p => p) (fun _ _ => ((0 : ℝ), (0 : ℝ), (0 : ℝ)))
        (0, 0, 0) (none, some 0, some 0) 350000 = (none, none, none, none) ∧
    calculate_ipp_gg (fun p => p) (fun _ _ => ((0 : ℝ), (0 : ℝ), (0 : ℝ)))
        (0, 0, 0) (none, some 0, some 0) 350000 = (none, none, none, none) := by
  refine ⟨rfl, ?_⟩
  exact ipp_nan_gives_undefined _ _ _ _ _ (Or.inl rfl)

/-- C3 (amended): when the line–sphere discriminant is negative, the
vectorized (`pytecgg`) variant reports all four outputs undefined; at the
input receiver `(0,0,0)`, satellite `(0,0,10000)`, shell height `350000`
the discriminant is actually positive, yet the vectorized variant still
reports all four outputs undefined because neither root lies in `[0,1]`;
the scalar (`pytecal`) variant instead substitutes the origin `(0,0,0)`
for the pierce point when the discriminant is negative and returns the
defined geodetic conversion of the origin together with defined
azimuth/elevation. -/
theorem ipp_neg_disc_behavior :
    (∀ (geodetic : ℝ × ℝ × ℝ → ℝ × ℝ × ℝ)
       (aer : ℝ × ℝ × ℝ → ℝ × ℝ × ℝ → ℝ × ℝ × ℝ)
       (recEcef satReal : ℝ × ℝ × ℝ) (h_ipp : ℝ),
       ippDisc recEcef satReal h_ipp < 0 →
       calculate_ipp_gg geodetic aer recEcef
         (some satReal.1, some satReal.2.1, some satReal.2.2) h_ipp
         = (none, none, none, none)) ∧
    (∀ (geodetic : ℝ × ℝ × ℝ → ℝ × ℝ × ℝ)
       (aer : ℝ × ℝ × ℝ → ℝ × ℝ × ℝ → ℝ × ℝ × ℝ),
       calculate_ipp_gg geodetic aer (0, 0, 0) (some 0, some 0, some 10000) 350000
         = (none, none, none, none)) ∧
    (∀ (geodetic : ℝ × ℝ × ℝ → ℝ × ℝ × ℝ)
       (aer : ℝ × ℝ × ℝ → ℝ × ℝ × ℝ → ℝ × ℝ × ℝ)
       (recEcef satReal : ℝ × ℝ × ℝ) (h_ipp : ℝ),
       ippDisc recEcef satReal h_ipp < 0 →
       calculate_ipp_al geodetic aer recEcef
         (some satReal.1, some satReal.2.1, some satReal.2.2) h_ipp
         = (some (geodetic ((0 : ℝ), (0 : ℝ), (0 : ℝ))).1,
            some (geodetic ((0 : ℝ), (0 : ℝ), (0 : ℝ))).2.1,
            some (aer (satReal.1, satReal.2.1, satReal.2.2)
              (geodetic (recEcef.1, recEcef.2.1, recEcef.2.2))).1,
            some (aer (satReal.1, satReal.2.1, satReal.2.2)
              (geodetic (recEcef.1, recEcef.2.1, recEcef.2.2))).2.1)) := by
  refine ⟨?_, ?_, ?_⟩
  · intro geodetic aer recEcef satReal h_ipp hd
    simp only [ippDisc] at hd
    simp only [calculate_ipp_gg]
    rw [if_pos hd]
  · intro geodetic aer
    simp only [calculate_ipp_gg]
    rw [if_neg (by norm_num [RE])]
    norm_num [RE]
    rw [show (18068736400000000000000 : ℝ) = 134420000000 ^ 2 by norm_num,
      Real.sqrt_sq (by norm_num)]
    norm_num
  · intro geodetic aer recEcef satReal h_ipp hd
    simp only [ippDisc] at hd
    simp only [calculate_ipp_al]
    split
    · rfl
    · rename_i hcond
      exfalso
      push_neg at hcond
      ring_nf at hcond hd
      linarith

/-- Witness for `ipp_neg_disc_behavior`: receiver `(12800000,0,0)`,
satellite `(12800000,1,0)`, shell height `29000` (shell radius `6400000`)
has a negative discriminant; the vectorized variant reports all-undefined
and the scalar variant returns the (defined) conversion of the origin. -/
theorem ipp_neg_disc_behavior_witness :
    ippDisc (12800000, 0, 0) (12800000, 1, 0) 29000 < 0 ∧
    calculate_ipp_gg (fun p => p) (fun _ _ => ((0 : ℝ), (0 : ℝ), (0 : ℝ)))
      (12800000, 0, 0) (some 12800000, some 1, some 0) 29000
      = (none, none, none, none) ∧
    calculate_ipp_al (fun p => p) (fun _ _ => ((0 : ℝ), (0 : ℝ), (0 : ℝ)))
      (12800000, 0, 0) (some 12800000, some 1, some 0) 29000
      = (some 0, some 0, some 0, some 0) := by
  refine ⟨by norm_num [ippDisc, RE], ?_, ?_⟩
  · exact ipp_neg_disc_behavior.1 _ _ (12800000, 0, 0) (12800000, 1, 0) 29000
      (by norm_num [ippDisc, RE])
  · exact ipp_neg_disc_behavior.2.2 _ _ (12800000, 0, 0) (12800000, 1, 0) 29000
      (by norm_num [ippDisc, RE])

/-- C3 counterexample: the claim fails on the code in two ways.  At the
named input (receiver `(0,0,0)`, satellite `(0,0,10000)`, shell height
`350000`) the discriminant is positive, not negative; and at a
negative-discriminant input the scalar (`pytecal`) `calculate_ipp`
returns defined outputs obtained from the zeroed point, not four
`None`/NaN values. -/
theorem ipp_neg_disc_counterexample :
    ippDisc (0, 0, 0) (0, 0, 10000) 350000 > 0 ∧
    ippDisc (12800000, 0, 0) (12800000, 1, 0) 29000 < 0 ∧
    calculate_ipp_al (fun p => p) (fun _ _ => ((0 : ℝ), (0 : ℝ), (0 : ℝ)))
      (12800000, 0, 0) (some 12800000, some 1, some 0) 29000
      ≠ (none, none, none, none) := by
  refine ⟨by norm_num [ippDisc, RE], by norm_num [ippDisc, RE], ?_⟩
  simp [calculate_ipp_al]

/-- C4: at receiver `(12800000,0,0)`, satellite `(−12800000,0,0)`, shell
height `29000` (shell radius `6400000`) both roots `t1 = 3/4`, `t2 = 1/4`
lie in `[0,1]`.  The vectorized (`pytecgg`) variant takes the smaller
root and pierces at `x = 6400000` (the near intersection), as the claim
and the spec require; the scalar (`pytecal`) variant computes
`t = min(max(t1,t2), 1) = 3/4` and pierces at `x = −6400000` (the far
intersection), with no `[0,1]` filtering at all. -/
theorem ipp_root_choice_divergence :
    calculate_ipp_al (fun p => p) (fun _ _ => ((0 : ℝ), (0 : ℝ), (0 : ℝ)))
      (12800000, 0, 0) (some (-12800000), some 0, some 0) 29000
      = (some (-6400000), some 0, some 0, some 0) ∧
    calculate_ipp_gg (fun p => p) (fun _ _ => ((0 : ℝ), (0 : ℝ), (0 : ℝ)))
      (12800000, 0, 0) (some (-12800000), some 0, some 0) 29000
      = (some 6400000, some 0, some 0, some 0) := by
  constructor
  · simp only [calculate_ipp_al]
    rw [if_neg (by norm_num [RE])]
    norm_num [RE]
    rw [show (107374182400000000000000000000 : ℝ) = 327680000000000 ^ 2 by norm_num,
      Real.sqrt_sq (by norm_num)]
    norm_num [max_def, min_def]
  · simp only [calculate_ipp_gg]
    rw [if_neg (by norm_num [RE])]
    norm_num [RE]
    rw [show (107374182400000000000000000000 : ℝ) = 327680000000000 ^ 2 by norm_num,
      Real.sqrt_sq (by norm_num)]
    norm_num [max_def, min_def]

/-! ### Keplerian propagator: validation and error wrapping
(src/pytecal/satellites/positions.py and src/pytec/satellites/positions.py)

For the error-handling claims only the control flow around the numeric
pipeline matters, so the pipeline body (time handling, anomalies,
harmonic corrections, ECEF assembly) is abstracted as a function
parameter returning `Except String`; `.error msg` models a Python
exception with message `msg` escaping the pipeline.  An ephemeris record
is a key/value list whose values may be `None` (`none`).  Python string
formatting that wraps names in quotes is modelled without the quotes. -/

/-- Result of a Python call: a normal return, or a raised exception
carrying its message. -/
inductive PyResult (α : Type) : Type
  | ok : α → PyResult α
  | exn : String → PyResult α

/-- The required ephemeris keys (the `REQUIRED_KEYS` tables of the two
variants list exactly these 17 keys, in this order). -/
def REQUIRED_KEYS : List String :=
  ["toe", "sqrta", "deltaN", "m0", "e", "omega", "cuc", "cus", "crc", "crs",
   "cic", "cis", "i0", "idot", "omega0", "omegaDot", "datetime"]

/-- `[k for k in required_keys if k not in data or data[k] is None]` — the
missing-parameter list shared by `_validate_ephemeris` (pytec) and
`_is_ephemeris_valid` (pytecal). -/
def missingKeys {V : Type} (data : List (String × Option V))
    (required : List String) : List String :=
  required.filter fun k =>
    match data.lookup k with
    | some (some _) => false
    | _ => true

/-- Python list formatting `f"{missing}"` (name quoting omitted). -/
def fmtKeys (ks : List String) : String :=
  "[" ++ String.intercalate ", " ks ++ "]"

/-- The keys of the `GNSS_CONSTANTS` table
(src/pytecal/satellites/__init__.py). -/
def GNSS_SYSTEMS : List String :=
  ["GPS", "BeiDou", "GLONASS", "Galileo", "QZSS", "NavIC"]

/-- `satellite_coordinates` (src/pytecal/satellites/positions.py), numeric
pipeline abstracted.  Returns the call result paired with the list of
warnings emitted.  Control flow of the source: unknown system →
ValueError; unknown satellite → KeyError; missing/None required field →
RuntimeWarning and empty arrays returned normally; pipeline exception →
wrapped into a single RuntimeError naming the constellation and the
satellite. -/
def satellite_coordinates {V : Type}
    (pipeline : List (String × Option V) → Except String (List ℝ × List ℝ))
    (ephem_dict : List (String × List (String × Option V)))
    (sv_id : String) (gnss_system : String) :
    PyResult (List ℝ × List ℝ) × List String :=
  if gnss_system ∈ GNSS_SYSTEMS then
    match ephem_dict.lookup sv_id with
    | none => (.exn ("Satellite " ++ sv_id ++ " not found in ephemeris data"), [])
    | some data =>
      let missing := missingKeys data REQUIRED_KEYS
      if missing.isEmpty then
        match pipeline data with
        | .ok r => (.ok r, [])
        | .error msg =>
          (.exn (gnss_system ++ " position computation failed for " ++ sv_id
            ++ ": " ++ msg), [])
      else
        (.ok ([], []), ["Missing ephemeris parameters: " ++ fmtKeys missing])
  else
    (.exn "Unsupported GNSS system: choose one of [GPS, Galileo, QZSS, BeiDou]", [])

/-- `get_sat_pos_bds` (src/pytec/satellites/positions.py), numeric
pipeline abstracted.  Here `_validate_ephemeris` raises a ValueError on a
missing/None required field, and the ValueError is raised before the
`try` block, so it escapes to the caller unwrapped; a pipeline exception
is wrapped into a RuntimeError naming only the satellite. -/
def get_sat_pos_bds {V : Type}
    (pipeline : List (String × Option V) → Except String (List ℝ × List ℝ))
    (ephem_dict : List (String × List (String × Option V)))
    (fieldname : String) : PyResult (List ℝ × List ℝ) :=
  match ephem_dict.lookup fieldname with
  | none => .exn ("Satellite " ++ fieldname ++ " not found in ephemeris data")
  | some data =>
    let missing := missingKeys data REQUIRED_KEYS
    if missing.isEmpty then
      match pipeline data with
      | .ok r => .ok r
      | .error msg => .exn ("Error computing position for " ++ fieldname ++ ": " ++ msg)
    else
      .exn ("Missing parameters: " ++ fmtKeys missing)

/-- C2 (amended): in the `pytecal` variant, a missing or `None` required
field makes `satellite_coordinates` return empty arrays normally (no
exception to the caller) with a warning; in the `pytec` variant
`get_sat_pos_bds` instead raises a ValueError listing the missing
parameters to the caller. -/
theorem sat_coords_missing_field_warns {V : Type}
    (pipeline : List (String × Option V) → Except String (List ℝ × List ℝ))
    (ephem_dict : List (String × List (String × Option V)))
    (sv_id gnss_system : String) (data : List (String × Option V))
    (hsys : gnss_system ∈ GNSS_SYSTEMS)
    (hlook : ephem_dict.lookup sv_id = some data)
    (hmiss : missingKeys data REQUIRED_KEYS ≠ []) :
    satellite_coordinates pipeline ephem_dict sv_id gnss_system =
      (.ok ([], []),
       ["Missing ephemeris parameters: " ++ fmtKeys (missingKeys data REQUIRED_KEYS)]) := by
  rw [satellite_coordinates, if_pos hsys, hlook]
  simp only []
  rw [if_neg]
  simp [List.isEmpty_iff, hmiss]

/-- Witness for `sat_coords_missing_field_warns`: a record carrying only
`toe = None` is missing all 17 required fields; the call warns and
returns empty arrays. -/
theorem sat_coords_missing_field_warns_witness :
    "BeiDou" ∈ GNSS_SYSTEMS ∧
    ([("C01", [("toe", (none : Option Unit))])].lookup "C01"
      = some [("toe", (none : Option Unit))]) ∧
    missingKeys [("toe", (none : Option Unit))] REQUIRED_KEYS ≠ [] ∧
    satellite_coordinates (fun _ => Except.ok (([], []) : List ℝ × List ℝ))
        [("C01", [("toe", (none : Option Unit))])] "C01" "BeiDou" =
      (.ok ([], []),
       ["Missing ephemeris parameters: "
         ++ fmtKeys (missingKeys [("toe", (none : Option Unit))] REQUIRED_KEYS)]) :=
  ⟨by decide, rfl, by decide,
    sat_coords_missing_field_warns _ _ _ _ _ (by decide) rfl (by decide)⟩

/-- C2 counterexample: the `pytec` Keplerian propagator `get_sat_pos_bds`
does raise to the caller on a missing/None required field: with a record
carrying only `toe = None`, it raises
`ValueError("Missing parameters: [...]")` instead of returning an
empty/undefined result. -/
theorem sat_coords_missing_field_counterexample :
    get_sat_pos_bds (fun _ => Except.ok (([], []) : List ℝ × List ℝ))
        [("C01", [("toe", (none : Option Unit))])] "C01" =
      .exn ("Missing parameters: "
        ++ "[toe, sqrta, deltaN, m0, e, omega, cuc, cus, crc, crs, cic, cis, i0, idot, omega0, omegaDot, datetime]") :=
  rfl

/-- A record carrying every required key with a (dummy) non-null value. -/
def fullRecord : List (String × Option Unit) :=
  REQUIRED_KEYS.map fun k => (k, some ())

/-- C6 (amended): in the `pytecal` variant, an exception escaping the
numeric pipeline after successful validation is wrapped into exactly one
failure `"<system> position computation failed for <sv_id>: <msg>"`,
naming both the constellation and the satellite, with no warning and
nothing else raised; the `pytec` variant instead wraps into
`"Error computing position for <sv_id>: <msg>"`, which names only the
satellite. -/
theorem sat_coords_wraps_pipeline_error {V : Type}
    (pipeline : List (String × Option V) → Except String (List ℝ × List ℝ))
    (ephem_dict : List (String × List (String × Option V)))
    (sv_id gnss_system msg : String) (data : List (String × Option V))
    (hsys : gnss_system ∈ GNSS_SYSTEMS)
    (hlook : ephem_dict.lookup sv_id = some data)
    (hvalid : missingKeys data REQUIRED_KEYS = [])
    (hpipe : pipeline data = .error msg) :
    satellite_coordinates pipeline ephem_dict sv_id gnss_system =
      (.exn (gnss_system ++ " position computation failed for " ++ sv_id
        ++ ": " ++ msg), []) ∧
    get_sat_pos_bds pipeline ephem_dict sv_id =
      .exn ("Error computing position for " ++ sv_id ++ ": " ++ msg) := by
  constructor
  · rw [satellite_coordinates, if_pos hsys, hlook]
    simp only []
    rw [if_pos (by simp [List.isEmpty_iff, hvalid]), hpipe]
  · rw [get_sat_pos_bds, hlook]
    simp only []
    rw [if_pos (by simp [List.isEmpty_iff, hvalid]), hpipe]

/-- Witness for `sat_coords_wraps_pipeline_error`: a complete record and a
pipeline failing with `"math domain error"`. -/
theorem sat_coords_wraps_pipeline_error_witness :
    "BeiDou" ∈ GNSS_SYSTEMS ∧
    ([("C01", fullRecord)].lookup "C01" = some fullRecord) ∧
    missingKeys fullRecord REQUIRED_KEYS = [] ∧
    satellite_coordinates (fun _ => (Except.error "math domain error" :
        Except String (List ℝ × List ℝ))) [("C01", fullRecord)] "C01" "BeiDou" =
      (.exn "BeiDou position computation failed for C01: math domain error", []) ∧
    get_sat_pos_bds (fun _ => (Except.error "math domain error" :
        Except String (List ℝ × List ℝ))) [("C01", fullRecord)] "C01" =
      .exn "Error computing position for C01: math domain error" := by
  refine ⟨by decide, rfl, by decide, ?_⟩
  exact sat_coords_wraps_pipeline_error _ _ _ _ _ _ (by decide) rfl (by decide) rfl

/-- C6 counterexample: the `pytec` wrap at a concrete failing pipeline
does not produce a `"position computation failed for"` message and does
not name the constellation (`"BeiDou"` occurs nowhere in it). -/
theorem sat_coords_wrap_message_counterexample :
    get_sat_pos_bds (fun _ => (Except.error "math domain error" :
        Except String (List ℝ × List ℝ))) [("C01", fullRecord)] "C01" =
      .exn "Error computing position for C01: math domain error" ∧
    ¬ ("BeiDou".data <:+: "Error computing position for C01: math domain error".data) ∧
    ¬ ("position computation failed for".data
        <:+: "Error computing position for C01: math domain error".data) := by
  refine ⟨rfl, by decide, by decide⟩

/-- `_apply_geo_correction` (textually identical in
src/pytec/satellites/positions.py and src/pytecal/satellites/positions.py):
the BeiDou GEO frame correction, a rotation by `we·tk` about Z composed
with a fixed `−5°` tilt about X.  `math.radians(-5) = -5·π/180`. -/
noncomputable def apply_geo_correction (Xk Yk Zk tk we : ℝ) : ℝ × ℝ × ℝ :=
  let sin5 := Real.sin (-5 * (Real.pi / 180))
  let cos5 := Real.cos (-5 * (Real.pi / 180))
  (Xk * Real.cos (we * tk) + Yk * Real.sin (we * tk) * cos5
     + Zk * Real.sin (we * tk) * sin5,
   -Xk * Real.sin (we * tk) + Yk * Real.cos (we * tk) * cos5
     + Zk * Real.cos (we * tk) * sin5,
   -Yk * sin5 + Zk * cos5)

/-- C7: for any nonzero Earth rotation rate `we`, applying the BeiDou GEO
correction to the X-axis unit vector `(1,0,0)` with `tk = π/(2·we)` (so
`we·tk = 90°`) yields `(0,−1,0)`, each component within `1e-6` (in fact
exactly). -/
theorem apply_geo_correction_quarter_turn (we : ℝ) (hwe : we ≠ 0) :
    |(apply_geo_correction 1 0 0 (Real.pi / (2 * we)) we).1 - 0| ≤ 1 / 1000000 ∧
    |(apply_geo_correction 1 0 0 (Real.pi / (2 * we)) we).2.1 - (-1)| ≤ 1 / 1000000 ∧
    |(apply_geo_correction 1 0 0 (Real.pi / (2 * we)) we).2.2 - 0| ≤ 1 / 1000000 := by
  have hang : we * (Real.pi / (2 * we)) = Real.pi / 2 := by
    field_simp
    ring
  simp only [apply_geo_correction, hang, Real.cos_pi_div_two, Real.sin_pi_div_two]
  norm_num

/-- Witness for `apply_geo_correction_quarter_turn` at the BeiDou value
`we = 7.292115e-5 rad/s` from `GNSS_CONSTANTS`. -/
theorem apply_geo_correction_quarter_turn_witness :
    ((7292115 : ℝ) / 100000000000 ≠ 0) ∧
    (|(apply_geo_correction 1 0 0 (Real.pi / (2 * (7292115 / 100000000000)))
        (7292115 / 100000000000)).1 - 0| ≤ 1 / 1000000 ∧
     |(apply_geo_correction 1 0 0 (Real.pi / (2 * (7292115 / 100000000000)))
        (7292115 / 100000000000)).2.1 - (-1)| ≤ 1 / 1000000 ∧
     |(apply_geo_correction 1 0 0 (Real.pi / (2 * (7292115 / 100000000000)))
        (7292115 / 100000000000)).2.2 - 0| ≤ 1 / 1000000) :=
  ⟨by norm_num, apply_geo_correction_quarter_turn _ (by norm_num)⟩

/-! ### GLONASS propagator
(src/pytecgg/satellites/glonass.py and src/pytecal/satellites/glonass.py) -/

/-- GLONASS Earth rotation rate `we = 7.292115e-5 rad/s`
(src/pytecal/satellites/__init__.py; the pytecgg package init resolving
the same `GNSS_CONSTANTS` name is not in the source tree and is modelled
by the same table value). -/
noncomputable def we_GLONASS : ℝ := 7292115 / 100000000000

/-- `t_span = (0, delta_seconds) if delta_seconds >= 0 else (delta_seconds, 0)`
(src/pytecgg/satellites/glonass.py). -/
noncomputable def t_span_gg (delta_seconds : ℝ) : ℝ × ℝ :=
  if 0 ≤ delta_seconds then (0, delta_seconds) else (delta_seconds, 0)

/-- `t_span = (0, delta_t) if delta_t >= 0 else (delta_t, 0)`
(src/pytecal/satellites/glonass.py). -/
noncomputable def t_span_al (delta_t : ℝ) : ℝ × ℝ :=
  if 0 ≤ delta_t then (0, delta_t) else (delta_t, 0)

/-- The Earth-fixed → inertial rotation
`[[cos θ, −sin θ, 0], [sin θ, cos θ, 0], [0, 0, 1]]` applied to a
vector. -/
noncomputable def glonassRotToInertial (θ : ℝ) (v : ℝ × ℝ × ℝ) : ℝ × ℝ × ℝ :=
  (Real.cos θ * v.1 - Real.sin θ * v.2.1,
   Real.sin θ * v.1 + Real.cos θ * v.2.1,
   v.2.2)

/-- The inertial → Earth-fixed rotation
`[[cos θ, sin θ, 0], [−sin θ, cos θ, 0], [0, 0, 1]]` applied to a
vector. -/
noncomputable def glonassRotToEcef (θ : ℝ) (v : ℝ × ℝ × ℝ) : ℝ × ℝ × ℝ :=
  (Real.cos θ * v.1 + Real.sin θ * v.2.1,
   -Real.sin θ * v.1 + Real.cos θ * v.2.1,
   v.2.2)

/-- A GLONASS broadcast record: instantaneous position/velocity/
acceleration components and the reference epoch.  A field that is absent
or `None` in the Python dict is `none`; the timestamp is modelled in
whole seconds. -/
structure GlonassRecord where
  satPosX : Option ℝ
  satPosY : Option ℝ
  satPosZ : Option ℝ
  velX : Option ℝ
  velY : Option ℝ
  velZ : Option ℝ
  accelX : Option ℝ
  accelY : Option ℝ
  accelZ : Option ℝ
  gps_seconds : Option ℤ

/-- `glonass_satellite_coordinates` (src/pytecgg/satellites/glonass.py).
The SciPy call is abstracted as `odeFinal tspan y0 ae`, the final state
`sol.y[:, -1]` of integrating the equations of motion with the constant
supplied acceleration `ae` over `tspan`, the initial state `y0` being
placed at `tspan.1` (`solve_ivp` starts at `t_span[0]`); the calendar
part of `get_gmst` is abstracted as `gmstOf` applied to the epoch
timestamp.  For the epoch time-of-day, `te = hour·3600 + minute·60 +
second` of `fromtimestamp(gps_seconds)` equals `gps_seconds % 86400` for
whole-second timestamps, and the source then takes `te % 86400` again.
A required field (`satPos*`, `vel*`, `gps_seconds`) that is `None`
raises (a `None` entering NumPy arithmetic is a TypeError); the three
acceleration components alone are defaulted,
`0.0 if data["accel_"] is None else data["accel_"]`, modelled by
`Option.getD _ 0`. -/
noncomputable def glonass_satellite_coordinates_gg
    (gmstOf : ℤ → ℝ)
    (odeFinal : ℝ × ℝ → (ℝ × ℝ × ℝ) × (ℝ × ℝ × ℝ) → ℝ × ℝ × ℝ →
      (ℝ × ℝ × ℝ) × (ℝ × ℝ × ℝ))
    (data : GlonassRecord) (delta_seconds : ℝ) : PyResult (ℝ × ℝ × ℝ) :=
  match data.satPosX, data.satPosY, data.satPosZ,
        data.velX, data.velY, data.velZ, data.gps_seconds with
  | some px, some py, some pz, some vx, some vy, some vz, some ts =>
    let re := (px * 1000, py * 1000, pz * 1000)
    let ve := (vx * 1000, vy * 1000, vz * 1000)
    let ae := (data.accelX.getD 0 * 1000, data.accelY.getD 0 * 1000,
               data.accelZ.getD 0 * 1000)
    let te : ℤ := ts % 86400
    let theta_ge := gmstOf ts + we_GLONASS * ((te % 86400 : ℤ) : ℝ)
    let ra := glonassRotToInertial theta_ge re
    let va0 := glonassRotToInertial theta_ge ve
    let va := (va0.1 + we_GLONASS * -ra.2.1, va0.2.1 + we_GLONASS * ra.1, va0.2.2)
    let tspan := t_span_gg delta_seconds
    let finalState := odeFinal tspan (ra, va) ae
    let theta_gi := theta_ge + we_GLONASS * delta_seconds
    .ok (glonassRotToEcef theta_gi finalState.1)
  | _, _, _, _, _, _, _ => .exn "unsupported operand type for arithmetic: NoneType"

/-- C10: in the pytecgg GLONASS propagator, `None` acceleration components
are silently replaced by `0.0` (the call behaves exactly as if each
absent component were `0`), a position is still computed and returned
with no exception — while a `None` in any required field (here
exemplified by `satPosX`) does raise, so acceleration is the only
defaulted field. -/
theorem glonass_accel_default :
    (∀ (gmstOf : ℤ → ℝ)
       (odeFinal : ℝ × ℝ → (ℝ × ℝ × ℝ) × (ℝ × ℝ × ℝ) → ℝ × ℝ × ℝ →
         (ℝ × ℝ × ℝ) × (ℝ × ℝ × ℝ))
       (data : GlonassRecord) (delta_seconds : ℝ)
       (px py pz vx vy vz : ℝ) (ts : ℤ),
       data.satPosX = some px → data.satPosY = some py → data.satPosZ = some pz →
       data.velX = some vx → data.velY = some vy → data.velZ = some vz →
       data.gps_seconds = some ts →
       glonass_satellite_coordinates_gg gmstOf odeFinal data delta_seconds =
         glonass_satellite_coordinates_gg gmstOf odeFinal
           { data with accelX := some (data.accelX.getD 0),
                       accelY := some (data.accelY.getD 0),
                       accelZ := some (data.accelZ.getD 0) } delta_seconds ∧
       ∃ pos, glonass_satellite_coordinates_gg gmstOf odeFinal data delta_seconds
         = .ok pos) ∧
    (∀ (gmstOf : ℤ → ℝ)
       (odeFinal : ℝ × ℝ → (ℝ × ℝ × ℝ) × (ℝ × ℝ × ℝ) → ℝ × ℝ × ℝ →
         (ℝ × ℝ × ℝ) × (ℝ × ℝ × ℝ))
       (data : GlonassRecord) (delta_seconds : ℝ),
       data.satPosX = none →
       glonass_satellite_coordinates_gg gmstOf odeFinal data delta_seconds =
         .exn "unsupported operand type for arithmetic: NoneType") := by
  constructor
  · intro gmstOf odeFinal data delta_seconds px py pz vx vy vz ts
      h1 h2 h3 h4 h5 h6 h7
    obtain ⟨sX, sY, sZ, vX, vY, vZ, aX, aY, aZ, gs⟩ := data
    simp only at h1 h2 h3 h4 h5 h6 h7
    subst h1 h2 h3 h4 h5 h6 h7
    constructor
    · simp [glonass_satellite_coordinates_gg]
    · exact ⟨_, rfl⟩
  · intro gmstOf odeFinal data delta_seconds h1
    obtain ⟨sX, sY, sZ, vX, vY, vZ, aX, aY, aZ, gs⟩ := data
    simp only at h1
    subst h1
    cases sY <;> cases sZ <;> cases vX <;> cases vY <;> cases vZ <;> cases gs <;>
      rfl

/-- Witness for `glonass_accel_default`: a record with `accelX` and
`accelZ` null and `accelY = 1` propagates as if the null components were
zero and returns a position; a record with null `satPosX` raises. -/
theorem glonass_accel_default_witness :
    (({ satPosX := some 1, satPosY := some 2, satPosZ := some 3,
        velX := some 4, velY := some 5, velZ := some 6,
        accelX := none, accelY := some 1, accelZ := none,
        gps_seconds := some 1000 } : GlonassRecord).satPosX = some 1) ∧
    (glonass_satellite_coordinates_gg (fun _ => 0) (fun _ y _ => y)
        { satPosX := some 1, satPosY := some 2, satPosZ := some 3,
          velX := some 4, velY := some 5, velZ := some 6,
          accelX := none, accelY := some 1, accelZ := none,
          gps_seconds := some 1000 } 300 =
      glonass_satellite_coordinates_gg (fun _ => 0) (fun _ y _ => y)
        { satPosX := some 1, satPosY := some 2, satPosZ := some 3,
          velX := some 4, velY := some 5, velZ := some 6,
          accelX := some 0, accelY := some 1, accelZ := some 0,
          gps_seconds := some 1000 } 300 ∧
     ∃ pos, glonass_satellite_coordinates_gg (fun _ => 0) (fun _ y _ => y)
        { satPosX := some 1, satPosY := some 2, satPosZ := some 3,
          velX := some 4, velY := some 5, velZ := some 6,
          accelX := none, accelY := some 1, accelZ := none,
          gps_seconds := some 1000 } 300 = .ok pos) ∧
    (glonass_satellite_coordinates_gg (fun _ => 0) (fun _ y _ => y)
        { satPosX := none, satPosY := some 2, satPosZ := some 3,
          velX := some 4, velY := some 5, velZ := some 6,
          accelX := some 0, accelY := some 1, accelZ := some 0,
          gps_seconds := some 1000 } 300 =
      .exn "unsupported operand type for arithmetic: NoneType") :=
  ⟨rfl,
    glonass_accel_default.1 (fun _ => 0) (fun _ y _ => y) _ 300 1 2 3 4 5 6 1000
      rfl rfl rfl rfl rfl rfl rfl,
    glonass_accel_default.2 (fun _ => 0) (fun _ y _ => y) _ 300 rfl⟩

/-- C5 (amended): for a target time before the reference epoch
(`Δt < 0`) both GLONASS propagator variants normalise the integration
span to the increasing pair `(Δt, 0)` — the reference-epoch inertial
state is handed to the solver as the state at the span start `Δt`, and
the integration terminates at `0` — and the two variants compute the
span identically.  (The final rotation angle is advanced by `we·Δt` in
the pytecgg variant, see `glonass_satellite_coordinates_gg`; the pytecal
variant uses the time-of-day difference `we·(tff − te)` instead.) -/
theorem glonass_t_span_negative (delta : ℝ) (h : delta < 0) :
    t_span_gg delta = (delta, 0) ∧ t_span_al delta = t_span_gg delta := by
  constructor
  · rw [t_span_gg, if_neg (not_le.mpr h)]
  · rfl

/-- Witness for `glonass_t_span_negative` at `Δt = −10`. -/
theorem glonass_t_span_negative_witness :
    (-10 : ℝ) < 0 ∧
      (t_span_gg (-10) = (-10, 0) ∧ t_span_al (-10) = t_span_gg (-10)) :=
  ⟨by norm_num, glonass_t_span_negative (-10) (by norm_num)⟩

/-- C5 counterexample: at `Δt = −10` the integration span handed to the
solver is `(−10, 0)`, not `(0, −10)` as the claim states — the span is
not from `0` to the signed elapsed time, and the initial state is placed
at `Δt`, not at `0`. -/
theorem glonass_t_span_counterexample :
    t_span_gg (-10) = (-10, 0) ∧
      ((-10 : ℝ), (0 : ℝ)) ≠ ((0 : ℝ), (-10 : ℝ)) := by
  constructor
  · rw [t_span_gg, if_neg (by norm_num)]
  · simp [Prod.ext_iff]

end PyTECGg
